import Mathlib

/-!
Verification of the scripting-binding layer of an MMORPG server emulator
(item attribute bindings, item split/transform handle rebinding, monster
forge/hazard bindings, vocation bindings, and the creature-callback script
gate). Definitions are shallow embeddings of the C++ binding functions;
external collaborators (the game world transform, the decay engine, the
script-environment registry) are modelled as oracles or from the design
document where their code is not part of the verified sources.
-/

namespace Tibia

/-- A Lua value as observed at the binding boundary: the values the binding
functions push back to the scripting runtime. Numbers are modelled as
rationals (exact arithmetic in the range scripts use). -/
inductive LuaVal where
  | nil
  | boolean (b : Bool)
  | num (q : Rat)
  | str (s : String)
  | userdata (ref : Nat) (meta : String)
deriving DecidableEq, Repr

/-- Association-list update: bind key `k` to `v`, dropping any previous
binding of `k` (models map/attribute insertion-or-overwrite). -/
def assocSet {κ α : Type} [DecidableEq κ] (m : List (κ × α)) (k : κ) (v : α) :
    List (κ × α) :=
  (k, v) :: m.filter (fun p => if p.1 = k then false else true)

/-- Association-list lookup. -/
def assocGet {κ α : Type} [DecidableEq κ] (m : List (κ × α)) (k : κ) : Option α :=
  (m.find? (fun p => p.1 = k)).map (fun p => p.2)

/-- Association-list removal of every binding of key `k`. -/
def assocErase {κ α : Type} [DecidableEq κ] (m : List (κ × α)) (k : κ) :
    List (κ × α) :=
  m.filter (fun p => if p.1 = k then false else true)

theorem assocGet_set_self {κ α : Type} [DecidableEq κ] (m : List (κ × α)) (k : κ) (v : α) :
    assocGet (assocSet m k v) k = some v := by
  simp [assocGet, assocSet, List.find?]

theorem assocGet_erase_self {κ α : Type} [DecidableEq κ] (m : List (κ × α)) (k : κ) :
    assocGet (assocErase m k) k = none := by
  induction m with
  | nil => rfl
  | cons p t ih =>
    by_cases h : p.1 = k <;>
      simp_all [assocGet, assocErase, List.filter, List.find?]

/-- The truncation-toward-zero integer conversion applied by
`getNumber<int64_t>` to a Lua number (C++ double-to-integer cast). -/
def truncInt64 (q : Rat) : Int :=
  if 0 ≤ q then q.floor else q.ceil

theorem truncInt64_intCast (n : Int) : truncInt64 (n : Rat) = n := by
  unfold truncInt64 Rat.floor Rat.ceil
  simp

theorem intFloor_eq_ratFloor (q : Rat) : ⌊q⌋ = q.floor := rfl

/-! ## Item typed attributes (ItemFunctions::luaItemSetAttribute / luaItemRemoveAttribute) -/

/-- The item attribute keys used by the bindings (`ItemAttribute_t`). Only the
keys the verified bindings dispatch on are listed; the remaining integer and
string keys behave like the representative ones here. -/
inductive ItemAttribute_t where
  | NONE
  | ACTIONID
  | UNIQUEID
  | DURATION
  | DURATION_TIMESTAMP
  | DECAYSTATE
  | FLUIDTYPE
  | OWNER
  | TIER
  | TEXT
  | DESCRIPTION
deriving DecidableEq, Repr

/-- Modelled from the spec: the design document splits typed attributes into
integer-valued and string-valued categories (`Item::isAttributeInteger` is not
among the verified sources). The in-source reads `getAttribute<uint16_t>` of
UNIQUEID, ACTIONID and FLUIDTYPE confirm those keys are integer-valued. -/
def isAttributeInteger : ItemAttribute_t → Bool
  | ItemAttribute_t.ACTIONID => true
  | ItemAttribute_t.UNIQUEID => true
  | ItemAttribute_t.DURATION => true
  | ItemAttribute_t.DURATION_TIMESTAMP => true
  | ItemAttribute_t.DECAYSTATE => true
  | ItemAttribute_t.FLUIDTYPE => true
  | ItemAttribute_t.OWNER => true
  | ItemAttribute_t.TIER => true
  | _ => false

/-- Modelled from the spec: the string-valued attribute category. -/
def isAttributeString : ItemAttribute_t → Bool
  | ItemAttribute_t.TEXT => true
  | ItemAttribute_t.DESCRIPTION => true
  | _ => false

/-- `ItemDecayState_t` numeric values (the binding compares the raw number). -/
def DECAYING_FALSE : Int := 0

def DECAYING_TRUE : Int := 1

def DECAYING_PENDING : Int := 2

def DECAYING_STOPPING : Int := 3

/-- A custom (schema-less) attribute value: the `CustomAttribute` tagged
union. Exactly one variant is active by construction. -/
inductive CustomValue where
  | int64 (i : Int)
  | double (q : Rat)
  | str (s : String)
  | boolVal (b : Bool)
deriving DecidableEq, Repr

def CustomValue.isDouble : CustomValue → Bool
  | CustomValue.double _ => true
  | _ => false

def CustomValue.isInt64 : CustomValue → Bool
  | CustomValue.int64 _ => true
  | _ => false

/-- The attribute state of one item: typed integer and string attribute
slots, the decay-state field written by `setDecaying`, and the open
custom-attribute map with case-sensitive string keys. -/
structure Item where
  intAttrs : List (ItemAttribute_t × Int)
  strAttrs : List (ItemAttribute_t × String)
  decaying : Int
  customAttrs : List (String × CustomValue)
deriving DecidableEq, Repr

def Item.setIntAttr (it : Item) (k : ItemAttribute_t) (v : Int) : Item :=
  { it with intAttrs := assocSet it.intAttrs k v }

def Item.setStrAttr (it : Item) (k : ItemAttribute_t) (v : String) : Item :=
  { it with strAttrs := assocSet it.strAttrs k v }

/-- `Item::removeAttribute`: drops the binding of `k` whichever category it
lives in. -/
def Item.removeAttr (it : Item) (k : ItemAttribute_t) : Item :=
  { it with intAttrs := assocErase it.intAttrs k, strAttrs := assocErase it.strAttrs k }

/-- The value argument of `item:setAttribute` after the binding's
`getNumber`/`getString` reads. -/
inductive AttrArg where
  | intVal (v : Int)
  | strVal (s : String)
  | other
deriving DecidableEq, Repr

/-- `getNumber` semantics on the read argument (a non-number reads as 0). -/
def AttrArg.toInt : AttrArg → Int
  | AttrArg.intVal v => v
  | _ => 0

def AttrArg.toStr : AttrArg → String
  | AttrArg.strVal s => s
  | _ => ""

/-- A call into the decay engine recorded by the embedding
(`g_decay().stopDecay` / `g_decay().startDecay` are external collaborators). -/
inductive DecayCall where
  | start
  | stop
deriving DecidableEq, Repr

def errSetDurationTimestamp : String := "Attempt to set protected key \x22duration timestamp\x22"

def errEraseDurationTimestamp : String := "Attempt to erase protected key \x22duration timestamp\x22"

def errEraseUid : String := "Attempt to erase protected key \x22uid\x22"

/-- Result of an attribute-mutating binding call: the Lua value pushed, the
item's attribute state afterwards, the decay-engine calls issued, the error
reports issued, and whether tile flags were recomputed. -/
structure SetAttrOut where
  ret : LuaVal
  item : Item
  decayCalls : List DecayCall
  errors : List String
  tileFlagsUpdated : Bool
deriving DecidableEq, Repr

/-- Shallow embedding of `ItemFunctions::luaItemSetAttribute` (the non-nil
item path): dispatches on the attribute category; DECAYSTATE routes to the
decay engine's stop/start paths, DURATION couples the decay state and
restarts decay, DURATION_TIMESTAMP is rejected as protected, every other key
is written and tile flags updated. -/
def luaItemSetAttribute (item : Item) (attr : ItemAttribute_t) (value : AttrArg) :
    SetAttrOut :=
  if isAttributeInteger attr then
    if attr = ItemAttribute_t.DECAYSTATE then
      let decayState := value.toInt
      if decayState = DECAYING_FALSE ∨ decayState = DECAYING_STOPPING then
        ⟨LuaVal.boolean true, item, [DecayCall.stop], [], false⟩
      else
        ⟨LuaVal.boolean true, item, [DecayCall.start], [], false⟩
    else if attr = ItemAttribute_t.DURATION then
      let it1 : Item := { item with decaying := DECAYING_PENDING }
      let it2 := it1.setIntAttr ItemAttribute_t.DURATION value.toInt
      ⟨LuaVal.boolean true, it2, [DecayCall.start], [], false⟩
    else if attr = ItemAttribute_t.DURATION_TIMESTAMP then
      ⟨LuaVal.boolean false, item, [], [errSetDurationTimestamp], false⟩
    else
      ⟨LuaVal.boolean true, item.setIntAttr attr value.toInt, [], [], true⟩
  else if isAttributeString attr then
    ⟨LuaVal.boolean true, item.setStrAttr attr value.toStr, [], [], true⟩
  else
    ⟨LuaVal.nil, item, [], [], false⟩

/-- Shallow embedding of `ItemFunctions::luaItemRemoveAttribute` (the non-nil
item path): the unique-id and duration-timestamp keys are protected and
rejected with an error report and a `false` return; every other key is
removed. -/
def luaItemRemoveAttribute (item : Item) (attr : ItemAttribute_t) : SetAttrOut :=
  if attr ≠ ItemAttribute_t.UNIQUEID then
    if attr ≠ ItemAttribute_t.DURATION_TIMESTAMP then
      ⟨LuaVal.boolean true, item.removeAttr attr, [], [], false⟩
    else
      ⟨LuaVal.boolean false, item, [], [errEraseDurationTimestamp], false⟩
  else
    ⟨LuaVal.boolean false, item, [], [errEraseUid], false⟩

/-! ## Custom attributes (ItemFunctions::luaItemSetCustomAttribute / luaItemGetCustomAttribute) -/

/-- The key argument of the custom-attribute bindings as read from the Lua
stack: a number, a string, or something else. -/
inductive LuaKey where
  | num (q : Rat)
  | str (s : String)
  | other
deriving DecidableEq, Repr

/-- Key normalization shared by `luaItemGetCustomAttribute`,
`luaItemSetCustomAttribute` and `luaItemRemoveCustomAttribute`: a numeric key
is converted through `std::to_string(getNumber<int64_t>(L, 2))`; a string key
is used as-is; any other key is refused. -/
def luaCustomKey : LuaKey → Option String
  | LuaKey.num q => some (toString (truncInt64 q))
  | LuaKey.str s => some s
  | LuaKey.other => none

/-- Shallow embedding of `ItemFunctions::luaItemGetCustomAttribute` (the
non-nil item path): returns the stored `CustomAttribute` for the normalized
key, or nothing. -/
def luaItemGetCustomAttribute (item : Item) (key : LuaKey) : Option CustomValue :=
  match luaCustomKey key with
  | some k => assocGet item.customAttrs k
  | none => none

/-- Shallow embedding of `ItemFunctions::luaItemSetCustomAttribute` (the
non-nil item path). A numeric value is stored as the Double variant exactly
when `std::floor(doubleValue) < doubleValue`, otherwise as Int64 via the
`int64_t` read; strings and booleans store their own variants; any other
value type returns nil without mutation. -/
def luaItemSetCustomAttribute (item : Item) (key : LuaKey) (value : LuaVal) :
    LuaVal × Item :=
  match luaCustomKey key with
  | none => (LuaVal.nil, item)
  | some k =>
    match value with
    | LuaVal.num q =>
      if (q.floor : Rat) < q then
        (LuaVal.boolean true, { item with customAttrs := assocSet item.customAttrs k (CustomValue.double q) })
      else
        (LuaVal.boolean true, { item with customAttrs := assocSet item.customAttrs k (CustomValue.int64 (truncInt64 q)) })
    | LuaVal.str s =>
      (LuaVal.boolean true, { item with customAttrs := assocSet item.customAttrs k (CustomValue.str s) })
    | LuaVal.boolean b =>
      (LuaVal.boolean true, { item with customAttrs := assocSet item.customAttrs k (CustomValue.boolVal b) })
    | _ => (LuaVal.nil, item)

theorem ratFloor_lt_iff_fract_ne (q : Rat) : ((q.floor : Rat) < q) ↔ Int.fract q ≠ 0 := by
  rw [← intFloor_eq_ratFloor, ← Int.self_sub_floor, sub_ne_zero]
  constructor
  · intro h
    exact ne_of_gt h
  · intro h
    exact lt_of_le_of_ne (Int.floor_le q) (Ne.symm h)

theorem ratFloor_cast_eq_of_fract_eq (q : Rat) (h : Int.fract q = 0) :
    (q.floor : Rat) = q := by
  have hle : ((q.floor : Int) : Rat) ≤ q := by
    rw [← intFloor_eq_ratFloor]; exact Int.floor_le q
  rcases lt_or_eq_of_le hle with hlt | heq
  · exact absurd ((ratFloor_lt_iff_fract_ne q).mp hlt) (by simp [h])
  · exact heq

theorem truncInt64_eq_floor_of_fract_eq (q : Rat) (h : Int.fract q = 0) :
    truncInt64 q = q.floor := by
  have hq : ((q.floor : Int) : Rat) = q := ratFloor_cast_eq_of_fract_eq q h
  calc truncInt64 q = truncInt64 ((q.floor : Int) : Rat) := by rw [hq]
    _ = q.floor := truncInt64_intCast q.floor

/-- Claim C2 (counterexample): the unique-id key is NOT rejected by
`luaItemSetAttribute` — on an item with no attributes, writing UNIQUEID
returns `true`, reports no error, and changes the attribute set, contradicting
the claim that both protected keys reject writes with an error and a `false`
return. -/
theorem c2_uniqueid_set_not_rejected :
    (luaItemSetAttribute ⟨[], [], 0, []⟩ ItemAttribute_t.UNIQUEID (AttrArg.intVal 5)).ret
        = LuaVal.boolean true
    ∧ (luaItemSetAttribute ⟨[], [], 0, []⟩ ItemAttribute_t.UNIQUEID (AttrArg.intVal 5)).errors = []
    ∧ (luaItemSetAttribute ⟨[], [], 0, []⟩ ItemAttribute_t.UNIQUEID (AttrArg.intVal 5)).item
        ≠ (⟨[], [], 0, []⟩ : Item) := by
  refine ⟨rfl, rfl, ?_⟩
  decide

/-- Claim C2 (amended): `removeAttribute` rejects both protected keys (the
unique-id key and the duration-timestamp key) with an error report and a
`false` return, leaving the item's attribute set unchanged; `setAttribute`
rejects the duration-timestamp key the same way, but the unique-id key is not
protected against writes — `setAttribute` stores it and returns `true`. -/
theorem c2_protected_key_rejection (item : Item) (value : AttrArg) :
    luaItemRemoveAttribute item ItemAttribute_t.UNIQUEID
        = ⟨LuaVal.boolean false, item, [], [errEraseUid], false⟩
    ∧ luaItemRemoveAttribute item ItemAttribute_t.DURATION_TIMESTAMP
        = ⟨LuaVal.boolean false, item, [], [errEraseDurationTimestamp], false⟩
    ∧ luaItemSetAttribute item ItemAttribute_t.DURATION_TIMESTAMP value
        = ⟨LuaVal.boolean false, item, [], [errSetDurationTimestamp], false⟩
    ∧ (luaItemSetAttribute item ItemAttribute_t.UNIQUEID value).ret = LuaVal.boolean true
    ∧ (luaItemSetAttribute item ItemAttribute_t.UNIQUEID value).item
        = item.setIntAttr ItemAttribute_t.UNIQUEID value.toInt := by
  refine ⟨?_, ?_, ?_, ?_, ?_⟩ <;>
    simp [luaItemRemoveAttribute, luaItemSetAttribute, isAttributeInteger]

/-- Claim C3: setting the decay-state attribute routes to the decay engine —
the stop path exactly for the values None (`DECAYING_FALSE`) and Stopping
(`DECAYING_STOPPING`), the start path for every other value, with the stored
attribute slots untouched; setting the duration attribute writes the decay
state Pending, stores the duration, and restarts decay tracking. -/
theorem c3_decay_attribute_coupling (item : Item) (v : Int) :
    ((luaItemSetAttribute item ItemAttribute_t.DECAYSTATE (AttrArg.intVal v)).decayCalls
        = if v = DECAYING_FALSE ∨ v = DECAYING_STOPPING then [DecayCall.stop]
          else [DecayCall.start])
    ∧ (luaItemSetAttribute item ItemAttribute_t.DECAYSTATE (AttrArg.intVal v)).item = item
    ∧ (luaItemSetAttribute item ItemAttribute_t.DURATION (AttrArg.intVal v)).item.decaying
        = DECAYING_PENDING
    ∧ assocGet (luaItemSetAttribute item ItemAttribute_t.DURATION
        (AttrArg.intVal v)).item.intAttrs ItemAttribute_t.DURATION = some v
    ∧ (luaItemSetAttribute item ItemAttribute_t.DURATION (AttrArg.intVal v)).decayCalls
        = [DecayCall.start] := by
  refine ⟨?_, ?_, ?_, ?_, ?_⟩ <;>
    by_cases h : v = DECAYING_FALSE ∨ v = DECAYING_STOPPING <;>
      simp [luaItemSetAttribute, isAttributeInteger, Item.setIntAttr, AttrArg.toInt, h,
        assocGet_set_self]

/-- Claim C6: storing a numeric value as a custom attribute stores the Double
variant exactly when the value has a non-zero fractional part and the Int64
variant (holding the integer value) otherwise, and reading the same key back
returns that stored variant. -/
theorem c6_custom_numeric_kind (item : Item) (k : String) (q : Rat) :
    luaItemGetCustomAttribute
        (luaItemSetCustomAttribute item (LuaKey.str k) (LuaVal.num q)).2 (LuaKey.str k)
        = some (if Int.fract q ≠ 0 then CustomValue.double q else CustomValue.int64 q.floor)
    ∧ ((luaItemGetCustomAttribute
        (luaItemSetCustomAttribute item (LuaKey.str k) (LuaVal.num q)).2
          (LuaKey.str k)).map CustomValue.isDouble = some true ↔ Int.fract q ≠ 0)
    ∧ ((luaItemGetCustomAttribute
        (luaItemSetCustomAttribute item (LuaKey.str k) (LuaVal.num q)).2
          (LuaKey.str k)).map CustomValue.isInt64 = some true ↔ Int.fract q = 0) := by
  by_cases h : Int.fract q ≠ 0
  · have hlt : (q.floor : Rat) < q := (ratFloor_lt_iff_fract_ne q).mpr h
    refine ⟨?_, ?_, ?_⟩ <;>
      simp [luaItemSetCustomAttribute, luaItemGetCustomAttribute, luaCustomKey, hlt, h,
        assocGet_set_self, CustomValue.isDouble, CustomValue.isInt64]
  · push_neg at h
    have hnlt : ¬ ((q.floor : Rat) < q) := by
      rw [ratFloor_lt_iff_fract_ne]
      simp [h]
    refine ⟨?_, ?_, ?_⟩ <;>
      simp [luaItemSetCustomAttribute, luaItemGetCustomAttribute, luaCustomKey, hnlt, h,
        assocGet_set_self, CustomValue.isDouble, CustomValue.isInt64,
        truncInt64_eq_floor_of_fract_eq q h]

/-- Claim C10: the custom-attribute bindings address a numeric key `n` and the
decimal string rendering of `n` identically — setting under either key form
produces the same item state, and reading under either key form returns the
same result on every item. -/
theorem c10_custom_key_numeric_string (item : Item) (n : Int) (v : LuaVal) :
    luaItemSetCustomAttribute item (LuaKey.num (n : Rat)) v
        = luaItemSetCustomAttribute item (LuaKey.str (toString n)) v
    ∧ luaItemGetCustomAttribute item (LuaKey.num (n : Rat))
        = luaItemGetCustomAttribute item (LuaKey.str (toString n)) := by
  constructor <;>
    simp [luaItemSetCustomAttribute, luaItemGetCustomAttribute, luaCustomKey,
      truncInt64_intCast]

/-! ## Script environment handle registry (ItemFunctions::luaItemSplit / luaItemTransform) -/

/-- Modelled from the spec: the per-invocation `ScriptEnvironment` handle
registry (`ScriptEnvironment` of luascript.cpp is not among the verified
sources). It maps stable numeric handles to live item references; handles are
lazily allocated on first request. Item references are identified by a
numeric identity (distinct identities are distinct runtime instances). -/
structure ScriptEnv where
  localMap : List (Nat × Nat)
  lastUID : Nat
deriving DecidableEq, Repr

/-- Modelled from the spec: `resolve(uint32) -> Item?`. -/
def ScriptEnv.getItemByUID (env : ScriptEnv) (uid : Nat) : Option Nat :=
  assocGet env.localMap uid

/-- Modelled from the spec: `rebind` — point an existing handle at a new
item reference. -/
def ScriptEnv.insertItem (env : ScriptEnv) (uid : Nat) (item : Nat) : ScriptEnv :=
  ⟨assocSet env.localMap uid item, env.lastUID⟩

/-- Modelled from the spec: retire a handle entirely. -/
def ScriptEnv.removeItemByUID (env : ScriptEnv) (uid : Nat) : ScriptEnv :=
  ⟨assocErase env.localMap uid, env.lastUID⟩

/-- Modelled from the spec: `addHandle(item) -> uint32` — return the item's
current handle if it has one, else lazily allocate a fresh handle. -/
def ScriptEnv.addThing (env : ScriptEnv) (item : Nat) : Nat × ScriptEnv :=
  match env.localMap.find? (fun p => p.2 = item) with
  | some p => (p.1, env)
  | none =>
    (env.lastUID + 1, ⟨assocSet env.localMap (env.lastUID + 1) item, env.lastUID + 1⟩)

/-- The outcome of the external `g_game().transformItem` call (game.cpp is
not among the verified sources): the reference it returns (possibly the
original, possibly a new instance, possibly none), whether the original
instance is removed afterwards, and the attribute state of the surviving
instance. -/
structure TransformOracle where
  newItem : Option Nat
  removedAfter : Bool
  itemStateAfter : Item
deriving DecidableEq, Repr

def itemMeta : String := "Item"

/-- Result of `luaItemSplit`: pushed Lua value, script environment after the
call, the handle captured for the original item, the final `*itemPtr`, the
clone's stack count, and the temporary items registered for scope-end
disposal. -/
structure SplitOut where
  ret : LuaVal
  env : ScriptEnv
  uid : Nat
  itemPtr : Option Nat
  splitCount : Nat
  tempItems : List Nat
deriving DecidableEq, Repr

/-- Shallow embedding of `ItemFunctions::luaItemSplit` (the non-nil userdata
path): a non-stackable or removed item yields nil; otherwise the item's
handle is captured via `addThing`, the transform to the remaining count is
performed, the handle is retired if the original was removed and rebound if
the resulting reference differs, the split-off clone becomes a temporary
item, and the clone is pushed. -/
def luaItemSplit (env : ScriptEnv) (item : Nat) (stackable removed : Bool)
    (itemCount countArg : Nat) (cloneResult : Option Nat) (tr : TransformOracle) :
    SplitOut :=
  if ¬ stackable ∨ removed then
    ⟨LuaVal.nil, env, 0, some item, 0, []⟩
  else
    let count := min countArg itemCount
    let _diff := itemCount - count
    match cloneResult with
    | none => ⟨LuaVal.nil, env, 0, some item, 0, []⟩
    | some splitItem =>
      let r := env.addThing item
      let uid := r.1
      let env1 := r.2
      let env2 := if tr.removedAfter then env1.removeItemByUID uid else env1
      let env3 :=
        match tr.newItem with
        | some n => if n ≠ item then env2.insertItem uid n else env2
        | none => env2
      ⟨LuaVal.userdata splitItem itemMeta, env3, uid, tr.newItem, count, [splitItem]⟩

/-- Result of `luaItemTransform`: pushed Lua value, script environment after
the call, the handle captured for the original item, the final `*itemPtr`,
the attribute state of the item the caller now holds, and whether the
external transform was invoked at all. -/
structure TransformOut where
  ret : LuaVal
  env : ScriptEnv
  uid : Nat
  itemPtr : Option Nat
  itemState : Item
  transformCalled : Bool
deriving DecidableEq, Repr

/-- Shallow embedding of `ItemFunctions::luaItemTransform` (the non-nil
userdata path, numeric item-id argument): transforming to the item's current
id with subtype `-1` or its current subtype returns `true` with nothing
touched; otherwise the handle is captured, the transform performed, the
handle retired when the original was removed and rebound when the resulting
reference differs, and the caller's pointer updated. -/
def luaItemTransform (env : ScriptEnv) (item : Nat) (itemState : Item)
    (curId : Nat) (curSubType : Int) (itemIdArg : Nat) (subTypeArg : Int)
    (targetStackable : Bool) (targetStackSize : Int) (tr : TransformOracle) :
    TransformOut :=
  if curId = itemIdArg ∧ (subTypeArg = -1 ∨ subTypeArg = curSubType) then
    ⟨LuaVal.boolean true, env, 0, some item, itemState, false⟩
  else
    let _subType := if targetStackable then min subTypeArg targetStackSize else subTypeArg
    let r := env.addThing item
    let uid := r.1
    let env1 := r.2
    let env2 := if tr.removedAfter then env1.removeItemByUID uid else env1
    let env3 :=
      match tr.newItem with
      | some n => if n ≠ item then env2.insertItem uid n else env2
      | none => env2
    ⟨LuaVal.boolean true, env3, uid, tr.newItem, tr.itemStateAfter, true⟩

/-- Core property of the retire-then-rebind sequence shared by split and
transform: after optionally retiring the handle and rebinding it when the
resulting reference differs, the handle resolves to the new reference when
one exists and differs, resolves to nothing when the original was consumed
without a distinct successor, and never resolves to a consumed original. -/
theorem rebind_core (env1 : ScriptEnv) (uid item : Nat) (newItem : Option Nat)
    (removedAfter : Bool) :
    let env2 := if removedAfter then env1.removeItemByUID uid else env1
    let env3 :=
      match newItem with
      | some n => if n ≠ item then env2.insertItem uid n else env2
      | none => env2
    (∀ n, newItem = some n → n ≠ item → env3.getItemByUID uid = some n)
    ∧ (removedAfter = true → (newItem = none ∨ newItem = some item) →
        env3.getItemByUID uid = none)
    ∧ (removedAfter = true → env3.getItemByUID uid ≠ some item) := by
  rcases newItem with _ | n
  · cases removedAfter <;>
      simp [ScriptEnv.getItemByUID, ScriptEnv.removeItemByUID, assocGet_erase_self]
  · by_cases hn : n = item
    · subst hn
      cases removedAfter <;>
        simp [ScriptEnv.getItemByUID, ScriptEnv.removeItemByUID, assocGet_erase_self]
    · cases removedAfter <;>
        simp [hn, ScriptEnv.getItemByUID, ScriptEnv.insertItem, ScriptEnv.removeItemByUID,
          assocGet_set_self]

/-- Claim C1: both `luaItemSplit` and `luaItemTransform` capture the item's
current handle before mutating, rebind the handle to the resulting item
whenever the reference returned by the transform differs from the original,
and retire the handle entirely when the original was fully consumed without a
distinct successor — so after either operation the handle never resolves to
the consumed original, and the caller's pointer is updated to the transform's
result. -/
theorem c1_split_transform_rebind
    (env : ScriptEnv) (item splitClone : Nat) (itemCount countArg : Nat)
    (itemState : Item) (curId : Nat) (curSubType : Int) (itemIdArg : Nat)
    (subTypeArg : Int) (tstack : Bool) (tsize : Int) (tr : TransformOracle)
    (hchg : ¬ (curId = itemIdArg ∧ (subTypeArg = -1 ∨ subTypeArg = curSubType))) :
    let os := luaItemSplit env item true false itemCount countArg (some splitClone) tr
    let ot := luaItemTransform env item itemState curId curSubType itemIdArg subTypeArg
      tstack tsize tr
    (∀ n, tr.newItem = some n → n ≠ item →
        os.env.getItemByUID os.uid = some n ∧ ot.env.getItemByUID ot.uid = some n)
    ∧ (tr.removedAfter = true → (tr.newItem = none ∨ tr.newItem = some item) →
        os.env.getItemByUID os.uid = none ∧ ot.env.getItemByUID ot.uid = none)
    ∧ (tr.removedAfter = true →
        os.env.getItemByUID os.uid ≠ some item ∧ ot.env.getItemByUID ot.uid ≠ some item)
    ∧ os.itemPtr = tr.newItem ∧ ot.itemPtr = tr.newItem := by
  have hcore := rebind_core (env.addThing item).2 (env.addThing item).1 item
    tr.newItem tr.removedAfter
  simp only [ne_eq, ite_not] at hcore
  obtain ⟨h1, h2, h3⟩ := hcore
  simp only [luaItemSplit, luaItemTransform, if_neg hchg, ne_eq, ite_not,
    Bool.not_true, Bool.false_eq_true, false_or, if_false]
  refine ⟨fun n hn hni => ⟨h1 n hn hni, h1 n hn hni⟩,
    fun hr hni => ⟨h2 hr hni, h2 hr hni⟩,
    fun hr => ⟨h3 hr, h3 hr⟩, ?_, ?_⟩ <;> simp

/-- Claim C9: transforming a live item to its current item id with a subtype
argument of `-1` or its current subtype is a complete no-op that returns
`true`: the environment's handle registry, the caller's item pointer and the
item's attribute state are returned unchanged and the external transform is
never invoked. -/
theorem c9_transform_same_id_noop (env : ScriptEnv) (item : Nat) (itemState : Item)
    (curId : Nat) (curSubType : Int) (subTypeArg : Int) (tstack : Bool) (tsize : Int)
    (tr : TransformOracle) (hsub : subTypeArg = -1 ∨ subTypeArg = curSubType) :
    luaItemTransform env item itemState curId curSubType curId subTypeArg tstack tsize tr
      = ⟨LuaVal.boolean true, env, 0, some item, itemState, false⟩ := by
  unfold luaItemTransform
  rw [if_pos ⟨rfl, hsub⟩]

theorem c9_transform_same_id_noop_witness :
    luaItemTransform ⟨[(9, 7)], 9⟩ 7 ⟨[], [], 0, []⟩ 100 3 100 (-1) false 0
        ⟨some 8, true, ⟨[], [], 1, []⟩⟩
      = ⟨LuaVal.boolean true, ⟨[(9, 7)], 9⟩, 0, some 7, ⟨[], [], 0, []⟩, false⟩ :=
  c9_transform_same_id_noop ⟨[(9, 7)], 9⟩ 7 ⟨[], [], 0, []⟩ 100 3 (-1) false 0
    ⟨some 8, true, ⟨[], [], 1, []⟩⟩ (Or.inl rfl)

theorem c1_split_transform_rebind_witness :
    (¬ ((100 : Nat) = 101 ∧ ((3 : Int) = -1 ∨ (3 : Int) = 0)))
    ∧ (luaItemSplit ⟨[], 0⟩ 1 true false 10 4 (some 2)
        ⟨some 3, true, ⟨[], [], 0, []⟩⟩).env.getItemByUID
      (luaItemSplit ⟨[], 0⟩ 1 true false 10 4 (some 2)
        ⟨some 3, true, ⟨[], [], 0, []⟩⟩).uid = some 3 :=
  ⟨by decide,
    ((c1_split_transform_rebind ⟨[], 0⟩ 1 2 10 4 ⟨[], [], 0, []⟩ 100 0 101 3 false 0
      ⟨some 3, true, ⟨[], [], 0, []⟩⟩ (by decide)).1 3 rfl (by decide)).1⟩

/-! ## Script call gate (CreatureCallback::startScriptInterface) -/

/-- The runtime class of a creature (variant tag over Npc/Monster/Player). -/
inductive CreatureTag where
  | Npc
  | Monster
  | Player
deriving DecidableEq, Repr

structure Creature where
  tag : CreatureTag
  name : String
deriving DecidableEq, Repr

/-- `CreatureCallback::getCreatureClass`: the class string for the creature's
runtime variant, empty for an absent creature. -/
def getCreatureClass : Option Creature → String
  | none => ""
  | some c =>
    match c.tag with
    | CreatureTag.Npc => "Npc"
    | CreatureTag.Monster => "Monster"
    | CreatureTag.Player => "Player"

/-- Modelled from the spec: the script-invocation gate (`LuaScriptInterface`
environment stack of luascript.cpp is not among the verified sources). It
holds the stack of nested script environments (each recorded by its script
id) and the configured maximum nesting depth. -/
structure LuaGate where
  envStack : List Int
  maxDepth : Nat
deriving DecidableEq, Repr

/-- Modelled from the spec: `reserveScriptEnv` succeeds and pushes a fresh
environment while the nesting depth is below the configured maximum, and
fails leaving the gate untouched once the depth has reached it. -/
def reserveScriptEnv (g : LuaGate) : Bool × LuaGate :=
  if g.envStack.length < g.maxDepth then (true, ⟨(-1) :: g.envStack, g.maxDepth⟩)
  else (false, g)

/-- `ScriptEnvironment::setScriptId` on the freshly reserved environment. -/
def setScriptId (g : LuaGate) (scriptId : Int) : LuaGate :=
  match g.envStack with
  | [] => g
  | _ :: t => ⟨scriptId :: t, g.maxDepth⟩

def overflowLogHead : String := "[CreatureCallback::startScriptInterface] - "

def overflowLogTail : String :=
  " Call stack overflow. Too many lua script calls being nested."

/-- The formatted stack-overflow log line: includes the offending creature's
class and name. -/
def overflowLog (cls nm : String) : String :=
  overflowLogHead ++ cls ++ " " ++ nm ++ overflowLogTail

/-- Result of `CreatureCallback::startScriptInterface`: whether entry
succeeded, the gate afterwards, the error log lines emitted, and whether the
script function was pushed for the call. -/
structure StartOut where
  ok : Bool
  gate : LuaGate
  logLines : List String
  pushedFunction : Bool
deriving DecidableEq, Repr

/-- Shallow embedding of `CreatureCallback::startScriptInterface`: an unset
script id fails immediately; a full gate fails recoverably, logging the
target creature's class and name and leaving every outer scope in place; a
successful reservation records the script id and pushes the function. -/
def startScriptInterface (gate : LuaGate) (scriptId : Int) (target : Creature) :
    StartOut :=
  if scriptId = -1 then ⟨false, gate, [], false⟩
  else
    let r := reserveScriptEnv gate
    if r.1 then ⟨true, setScriptId r.2 scriptId, [], true⟩
    else ⟨false, r.2, [overflowLog (getCreatureClass (some target)) target.name], false⟩

/-- Claim C5: entry past the maximum nesting depth fails recoverably — the
call returns `false` without pushing the script function, the gate (all outer
scopes) is left exactly as it was, the event is logged with the offending
creature's class and name, and an independent call on a gate below the depth
limit still succeeds and pushes its call. -/
theorem c5_stack_overflow_recoverable (gate gate2 : LuaGate) (scriptId : Int)
    (target : Creature) (hid : scriptId ≠ -1)
    (hfull : gate.maxDepth ≤ gate.envStack.length)
    (hroom : gate2.envStack.length < gate2.maxDepth) :
    (startScriptInterface gate scriptId target).ok = false
    ∧ (startScriptInterface gate scriptId target).gate = gate
    ∧ (startScriptInterface gate scriptId target).pushedFunction = false
    ∧ (startScriptInterface gate scriptId target).logLines
        = [overflowLog (getCreatureClass (some target)) target.name]
    ∧ (startScriptInterface gate2 scriptId target).ok = true
    ∧ (startScriptInterface gate2 scriptId target).pushedFunction = true := by
  have h1 : ¬ gate.envStack.length < gate.maxDepth := not_lt.mpr hfull
  refine ⟨?_, ?_, ?_, ?_, ?_, ?_⟩ <;>
    simp [startScriptInterface, reserveScriptEnv, hid, h1, hroom]

theorem c5_stack_overflow_recoverable_witness :
    ((7 : Int) ≠ -1 ∧ (2 : Nat) ≤ [(-1 : Int), -1].length ∧ ([] : List Int).length < 2)
    ∧ ((startScriptInterface ⟨[-1, -1], 2⟩ 7 ⟨CreatureTag.Monster, "rat"⟩).ok = false
        ∧ (startScriptInterface ⟨[-1, -1], 2⟩ 7 ⟨CreatureTag.Monster, "rat"⟩).gate
            = ⟨[-1, -1], 2⟩
        ∧ (startScriptInterface ⟨[-1, -1], 2⟩ 7
            ⟨CreatureTag.Monster, "rat"⟩).pushedFunction = false
        ∧ (startScriptInterface ⟨[-1, -1], 2⟩ 7 ⟨CreatureTag.Monster, "rat"⟩).logLines
            = [overflowLog (getCreatureClass (some ⟨CreatureTag.Monster, "rat"⟩)) "rat"]
        ∧ (startScriptInterface ⟨[], 2⟩ 7 ⟨CreatureTag.Monster, "rat"⟩).ok = true
        ∧ (startScriptInterface ⟨[], 2⟩ 7 ⟨CreatureTag.Monster, "rat"⟩).pushedFunction
            = true) :=
  ⟨⟨by decide, by decide, by decide⟩,
    c5_stack_overflow_recoverable ⟨[-1, -1], 2⟩ ⟨[], 2⟩ 7 ⟨CreatureTag.Monster, "rat"⟩
      (by decide) (by decide) (by decide)⟩

/-! ## Monster forge and hazard bindings (MonsterFunctions) -/

/-- The creature icon modifications the forge binding selects between. -/
inductive CreatureIconModifications_t where
  | Influenced
  | Fiendish
deriving DecidableEq, Repr

/-- A creature status icon: its modification kind and its numeric badge
(`count`, 0 meaning no numeric badge). -/
structure CreatureIcon where
  modification : CreatureIconModifications_t
  count : Nat
deriving DecidableEq, Repr

/-- The monster state the verified monster bindings read and write: the forge
stack counter, the named status-icon map, the hazard-system flags, and the
creature name. -/
structure Monster where
  forgeStack : Nat
  icons : List (String × CreatureIcon)
  hazard : Bool
  hazardCrit : Bool
  hazardDodge : Bool
  hazardDamageBoost : Bool
  hazardDefenseBoost : Bool
  name : String
deriving DecidableEq, Repr

def forgeIconKey : String := "forge"

def errMonsterNotFound : String := "Monster not found"

/-- Result of `luaMonsterSetForgeStack`: the monster state afterwards (absent
when the handle was invalid), whether `g_game().updateCreatureIcon` ran,
whether `g_game().sendUpdateCreature` notified spectators, and the error
reports issued. -/
structure SetForgeOut where
  monster : Option Monster
  iconUpdated : Bool
  creatureUpdateSent : Bool
  errors : List String
deriving DecidableEq, Repr

/-- Shallow embedding of `MonsterFunctions::luaMonsterSetForgeStack`: the
stack argument is read as `uint16_t`; a missing monster reports not-found;
otherwise the stack is stored, the derived forge icon is set (Influenced
with the stack as badge below 15, Fiendish with no badge from 15 up, the
badge going through the `uint8_t` cast), the icon is updated and spectators
are notified. -/
def luaMonsterSetForgeStack (monster : Option Monster) (stackArg : Nat) : SetForgeOut :=
  let stack := stackArg % 65536
  match monster with
  | none => ⟨none, false, false, [errMonsterNotFound]⟩
  | some m =>
    let m1 : Monster := { m with forgeStack := stack }
    let icon :=
      if stack < 15 then CreatureIconModifications_t.Influenced
      else CreatureIconModifications_t.Fiendish
    let badge := if icon = CreatureIconModifications_t.Influenced then stack % 256 else 0
    let m2 : Monster := { m1 with icons := assocSet m1.icons forgeIconKey ⟨icon, badge⟩ }
    ⟨some m2, true, true, []⟩

/-- Claim C4: setting the forge stack to a value at most 14 stores it and
derives the Influenced icon carrying the stack value as its numeric badge,
setting it to 15 or more derives the Fiendish icon with no numeric badge
(badge 0) — the boundary is exactly 15 — and every stack change updates the
derived icon and notifies spectators before returning. -/
theorem c4_forge_stack_icon_boundary (m : Monster) (s : Nat) (hs : s < 65536) :
    ((luaMonsterSetForgeStack (some m) s).monster.map Monster.forgeStack = some s)
    ∧ (s ≤ 14 →
        (luaMonsterSetForgeStack (some m) s).monster.map
            (fun m2 => assocGet m2.icons forgeIconKey)
          = some (some ⟨CreatureIconModifications_t.Influenced, s⟩))
    ∧ (15 ≤ s →
        (luaMonsterSetForgeStack (some m) s).monster.map
            (fun m2 => assocGet m2.icons forgeIconKey)
          = some (some ⟨CreatureIconModifications_t.Fiendish, 0⟩))
    ∧ (luaMonsterSetForgeStack (some m) s).iconUpdated = true
    ∧ (luaMonsterSetForgeStack (some m) s).creatureUpdateSent = true
    ∧ (luaMonsterSetForgeStack (some m) s).errors = [] := by
  have hmod : s % 65536 = s := Nat.mod_eq_of_lt hs
  refine ⟨?_, ?_, ?_, ?_, ?_, ?_⟩
  · simp [luaMonsterSetForgeStack, hmod]
  · intro hle
    have hlt : s < 15 := Nat.lt_succ_of_le hle
    have h256 : s % 256 = s := Nat.mod_eq_of_lt (lt_trans hlt (by norm_num))
    simp [luaMonsterSetForgeStack, hmod, hlt, h256, assocGet_set_self]
  · intro hge
    have hnlt : ¬ s < 15 := not_lt.mpr hge
    simp [luaMonsterSetForgeStack, hmod, hnlt, assocGet_set_self]
  · simp [luaMonsterSetForgeStack]
  · simp [luaMonsterSetForgeStack]
  · simp [luaMonsterSetForgeStack]

theorem c4_forge_stack_icon_boundary_witness :
    ((14 : Nat) < 65536 ∧ (15 : Nat) < 65536)
    ∧ (luaMonsterSetForgeStack
          (some ⟨0, [], false, false, false, false, false, "boar"⟩) 14).monster.map
        (fun m2 => assocGet m2.icons forgeIconKey)
      = some (some ⟨CreatureIconModifications_t.Influenced, 14⟩)
    ∧ (luaMonsterSetForgeStack
          (some ⟨0, [], false, false, false, false, false, "boar"⟩) 15).monster.map
        (fun m2 => assocGet m2.icons forgeIconKey)
      = some (some ⟨CreatureIconModifications_t.Fiendish, 0⟩) :=
  ⟨⟨by decide, by decide⟩,
    (c4_forge_stack_icon_boundary ⟨0, [], false, false, false, false, false, "boar"⟩ 14
      (by decide)).2.1 (by decide),
    (c4_forge_stack_icon_boundary ⟨0, [], false, false, false, false, false, "boar"⟩ 15
      (by decide)).2.2.1 (by decide)⟩

/-- Result of a hazard get/set binding call: the pushed Lua value and the
monster state afterwards. -/
structure HazardOut where
  ret : LuaVal
  monster : Option Monster
deriving DecidableEq, Repr

/-- Shallow embedding of `MonsterFunctions::luaMonsterHazard`: with no value
argument it pushes the stored flag; with one it stores the value and pushes
the freshly read stored flag. -/
def luaMonsterHazard (monster : Option Monster) (arg : Option Bool) : HazardOut :=
  let hazard := arg.getD false
  match monster with
  | none => ⟨LuaVal.nil, none⟩
  | some m =>
    match arg with
    | none => ⟨LuaVal.boolean m.hazard, some m⟩
    | some _ =>
      let m1 : Monster := { m with hazard := hazard }
      ⟨LuaVal.boolean m1.hazard, some m1⟩

/-- Shallow embedding of `MonsterFunctions::luaMonsterHazardCrit`. -/
def luaMonsterHazardCrit (monster : Option Monster) (arg : Option Bool) : HazardOut :=
  let hazardCrit := arg.getD false
  match monster with
  | none => ⟨LuaVal.nil, none⟩
  | some m =>
    match arg with
    | none => ⟨LuaVal.boolean m.hazardCrit, some m⟩
    | some _ =>
      let m1 : Monster := { m with hazardCrit := hazardCrit }
      ⟨LuaVal.boolean m1.hazardCrit, some m1⟩

/-- Shallow embedding of `MonsterFunctions::luaMonsterHazardDodge`. -/
def luaMonsterHazardDodge (monster : Option Monster) (arg : Option Bool) : HazardOut :=
  let hazardDodge := arg.getD false
  match monster with
  | none => ⟨LuaVal.nil, none⟩
  | some m =>
    match arg with
    | none => ⟨LuaVal.boolean m.hazardDodge, some m⟩
    | some _ =>
      let m1 : Monster := { m with hazardDodge := hazardDodge }
      ⟨LuaVal.boolean m1.hazardDodge, some m1⟩

/-- Shallow embedding of `MonsterFunctions::luaMonsterHazardDamageBoost`. -/
def luaMonsterHazardDamageBoost (monster : Option Monster) (arg : Option Bool) :
    HazardOut :=
  let hazardDamageBoost := arg.getD false
  match monster with
  | none => ⟨LuaVal.nil, none⟩
  | some m =>
    match arg with
    | none => ⟨LuaVal.boolean m.hazardDamageBoost, some m⟩
    | some _ =>
      let m1 : Monster := { m with hazardDamageBoost := hazardDamageBoost }
      ⟨LuaVal.boolean m1.hazardDamageBoost, some m1⟩

/-- Shallow embedding of `MonsterFunctions::luaMonsterHazardDefenseBoost`. -/
def luaMonsterHazardDefenseBoost (monster : Option Monster) (arg : Option Bool) :
    HazardOut :=
  let hazardDefenseBoost := arg.getD false
  match monster with
  | none => ⟨LuaVal.nil, none⟩
  | some m =>
    match arg with
    | none => ⟨LuaVal.boolean m.hazardDefenseBoost, some m⟩
    | some _ =>
      let m1 : Monster := { m with hazardDefenseBoost := hazardDefenseBoost }
      ⟨LuaVal.boolean m1.hazardDefenseBoost, some m1⟩

/-- Claim C7: for each of the four hazard modifiers (crit, dodge,
damage-boost, defense-boost), the setter form stores the supplied boolean and
pushes the newly stored flag (set-then-return), and the getter form pushes
the stored flag leaving the monster unchanged. -/
theorem c7_hazard_set_then_return (m : Monster) (b : Bool) :
    (luaMonsterHazardCrit (some m) (some b)
        = ⟨LuaVal.boolean b, some { m with hazardCrit := b }⟩)
    ∧ (luaMonsterHazardCrit (some m) none = ⟨LuaVal.boolean m.hazardCrit, some m⟩)
    ∧ (luaMonsterHazardDodge (some m) (some b)
        = ⟨LuaVal.boolean b, some { m with hazardDodge := b }⟩)
    ∧ (luaMonsterHazardDodge (some m) none = ⟨LuaVal.boolean m.hazardDodge, some m⟩)
    ∧ (luaMonsterHazardDamageBoost (some m) (some b)
        = ⟨LuaVal.boolean b, some { m with hazardDamageBoost := b }⟩)
    ∧ (luaMonsterHazardDamageBoost (some m) none
        = ⟨LuaVal.boolean m.hazardDamageBoost, some m⟩)
    ∧ (luaMonsterHazardDefenseBoost (some m) (some b)
        = ⟨LuaVal.boolean b, some { m with hazardDefenseBoost := b }⟩)
    ∧ (luaMonsterHazardDefenseBoost (some m) none
        = ⟨LuaVal.boolean m.hazardDefenseBoost, some m⟩) := by
  refine ⟨?_, ?_, ?_, ?_, ?_, ?_, ?_, ?_⟩ <;>
    rfl

/-! ## Not-found handling of the binding surface (C8) -/

/-- Shallow embedding of `ItemFunctions::luaItemCreate`: resolve the numeric
handle through the current script environment; push the item userdata when it
resolves, nil otherwise. The environment is never mutated. -/
def luaItemCreate (env : ScriptEnv) (id : Nat) : LuaVal × ScriptEnv :=
  match env.getItemByUID id with
  | some item => (LuaVal.userdata item itemMeta, env)
  | none => (LuaVal.nil, env)

/-- Result of `luaMonsterGetName`: the values returned to Lua, the monster
state afterwards, and the error reports issued. -/
structure GetNameOut where
  retVals : List LuaVal
  monster : Option Monster
  errors : List String
deriving DecidableEq, Repr

/-- Shallow embedding of `MonsterFunctions::luaMonsterGetName`: a missing
monster reports the not-found error and returns no values (`return 0`); a
live monster returns its name and is not modified. -/
def luaMonsterGetName (monster : Option Monster) : GetNameOut :=
  match monster with
  | none => ⟨[], none, [errMonsterNotFound]⟩
  | some m => ⟨[LuaVal.str m.name], some m, []⟩

/-- The vocation state read by the vocation bindings. -/
structure Vocation where
  id : Nat
deriving DecidableEq, Repr

/-- Shallow embedding of `VocationFunctions::luaVocationGetId`: a missing
vocation pushes nil; a live one pushes its numeric id, unmodified. -/
def luaVocationGetId (vocation : Option Vocation) : LuaVal × Option Vocation :=
  match vocation with
  | none => (LuaVal.nil, none)
  | some v => (LuaVal.num (v.id : Rat), some v)

/-- Claim C8: when the first argument of a binding operation does not resolve
to a live handle, the operation reports not-found uniformly — `Item(uid)`
pushes nil leaving the environment untouched, `monster:getName()` returns no
value and reports the explicit not-found error without any monster mutation,
and `vocation:getId()` pushes nil — and no mutation is performed in any of
the three. -/
theorem c8_invalid_handle_not_found (env : ScriptEnv) (id : Nat)
    (hmiss : env.getItemByUID id = none) :
    luaItemCreate env id = (LuaVal.nil, env)
    ∧ luaMonsterGetName none = ⟨[], none, [errMonsterNotFound]⟩
    ∧ luaVocationGetId none = (LuaVal.nil, none) := by
  refine ⟨?_, rfl, rfl⟩
  unfold luaItemCreate
  rw [hmiss]

theorem c8_invalid_handle_not_found_witness :
    (ScriptEnv.getItemByUID ⟨[(4, 11)], 4⟩ 9 = none)
    ∧ luaItemCreate ⟨[(4, 11)], 4⟩ 9 = (LuaVal.nil, ⟨[(4, 11)], 4⟩)
    ∧ luaMonsterGetName none = ⟨[], none, [errMonsterNotFound]⟩
    ∧ luaVocationGetId none = (LuaVal.nil, none) :=
  ⟨by decide,
    (c8_invalid_handle_not_found ⟨[(4, 11)], 4⟩ 9 (by decide)).1,
    (c8_invalid_handle_not_found ⟨[(4, 11)], 4⟩ 9 (by decide)).2.1,
    (c8_invalid_handle_not_found ⟨[(4, 11)], 4⟩ 9 (by decide)).2.2⟩

end Tibia
